import Mathlib

set_option maxRecDepth 100000

/-!
Verification of the crypto-trading-mcp exchange adapter layer.

The definitions below are a shallow embedding of the Python sources:
byte-level UTF-8 encoding, SHA-256 / SHA-512 and HMAC (hashlib / hmac, as
used by the signing strategies), the per-exchange request signers, the
response normalizers, the shared error mapper, and the ISO-8601 / epoch
conversion helpers. Machine words are `Nat` with explicit masking.
-/

namespace CryptoMcp

/-! ## Bytes, UTF-8 and hex encoding -/

/-- UTF-8 encoding of a single code point (Python `str.encode()`). -/
def utf8Char (c : Char) : List Nat :=
  let n := c.toNat
  if n < 128 then [n]
  else if n < 2048 then
    [192 ||| (n >>> 6), 128 ||| (n &&& 63)]
  else if n < 65536 then
    [224 ||| (n >>> 12), 128 ||| ((n >>> 6) &&& 63), 128 ||| (n &&& 63)]
  else
    [240 ||| (n >>> 18), 128 ||| ((n >>> 12) &&& 63),
     128 ||| ((n >>> 6) &&& 63), 128 ||| (n &&& 63)]

/-- The UTF-8 bytes of a string (Python `s.encode()`). -/
def strBytes (s : String) : List Nat :=
  s.toList.flatMap utf8Char

/-- Lower-case hex digit for a nibble. -/
def hexDigit (n : Nat) : Char :=
  if n < 10 then Char.ofNat (48 + n) else Char.ofNat (87 + n)

/-- Two lower-case hex digits of one byte. -/
def byteHex (b : Nat) : List Char :=
  [hexDigit ((b >>> 4) &&& 15), hexDigit (b &&& 15)]

/-- Lower-case hex string of a byte sequence (Python `.hexdigest()` output format). -/
def bytesToHex (bs : List Nat) : String :=
  String.mk (bs.flatMap byteHex)

/-- Big-endian byte serialization of `n` into `k` bytes. -/
def beBytes (k n : Nat) : List Nat :=
  (List.range k).map (fun i => (n >>> (8 * (k - 1 - i))) &&& 255)

/-- Split a list into chunks of `sz` elements, with explicit fuel
(the callers pass fuel `≥ length`, and lengths are multiples of `sz`). -/
def chunksF (sz : Nat) : Nat → List α → List (List α)
  | 0, _ => []
  | _, [] => []
  | Nat.succ fuel, l => l.take sz :: chunksF sz fuel (l.drop sz)

/-! ## SHA-256 (FIPS 180-4, as exposed by Python `hashlib.sha256`) -/

def mask32 : Nat := 4294967295

def rotr32 (x n : Nat) : Nat :=
  ((x >>> n) ||| (x <<< (32 - n))) &&& mask32

def k256 : List Nat := [
  1116352408, 1899447441, 3049323471, 3921009573, 961987163, 1508970993,
  2453635748, 2870763221, 3624381080, 310598401, 607225278, 1426881987,
  1925078388, 2162078206, 2614888103, 3248222580, 3835390401, 4022224774,
  264347078, 604807628, 770255983, 1249150122, 1555081692, 1996064986,
  2554220882, 2821834349, 2952996808, 3210313671, 3336571891, 3584528711,
  113926993, 338241895, 666307205, 773529912, 1294757372, 1396182291,
  1695183700, 1986661051, 2177026350, 2456956037, 2730485921, 2820302411,
  3259730800, 3345764771, 3516065817, 3600352804, 4094571909, 275423344,
  430227734, 506948616, 659060556, 883997877, 958139571, 1322822218,
  1537002063, 1747873779, 1955562222, 2024104815, 2227730452, 2361852424,
  2428436474, 2756734187, 3204031479, 3329325298
]

def h256init : List Nat := [
  1779033703, 3144134277, 1013904242, 2773480762,
  1359893119, 2600822924, 528734635, 1541459225
]

/-- Big-endian 32-bit words of a byte block. -/
def wordsBE32 : List Nat → List Nat
  | b0 :: b1 :: b2 :: b3 :: rest =>
      ((b0 <<< 24) ||| (b1 <<< 16) ||| (b2 <<< 8) ||| b3) :: wordsBE32 rest
  | _ => []

/-- Extend the 16-word message schedule by `count` further words. -/
def extend256 (ws : List Nat) : Nat → List Nat
  | 0 => ws
  | Nat.succ k =>
      let i := ws.length
      let w15 := ws.getD (i - 15) 0
      let w2 := ws.getD (i - 2) 0
      let s0 := (rotr32 w15 7) ^^^ (rotr32 w15 18) ^^^ (w15 >>> 3)
      let s1 := (rotr32 w2 17) ^^^ (rotr32 w2 19) ^^^ (w2 >>> 10)
      extend256 (ws ++ [(ws.getD (i - 16) 0 + s0 + ws.getD (i - 7) 0 + s1) &&& mask32]) k

/-- The eight working variables of the compression loop. -/
structure Hash8 where
  a : Nat
  b : Nat
  c : Nat
  d : Nat
  e : Nat
  f : Nat
  g : Nat
  h : Nat

def step256 (st : Hash8) (kw : Nat × Nat) : Hash8 :=
  let S1 := (rotr32 st.e 6) ^^^ (rotr32 st.e 11) ^^^ (rotr32 st.e 25)
  let ch := (st.e &&& st.f) ^^^ ((mask32 ^^^ st.e) &&& st.g)
  let t1 := (st.h + S1 + ch + kw.1 + kw.2) &&& mask32
  let S0 := (rotr32 st.a 2) ^^^ (rotr32 st.a 13) ^^^ (rotr32 st.a 22)
  let maj := (st.a &&& st.b) ^^^ (st.a &&& st.c) ^^^ (st.b &&& st.c)
  let t2 := (S0 + maj) &&& mask32
  ⟨(t1 + t2) &&& mask32, st.a, st.b, st.c, (st.d + t1) &&& mask32, st.e, st.f, st.g⟩

def block256 (hs : List Nat) (block : List Nat) : List Nat :=
  let w := extend256 (wordsBE32 block) 48
  let st0 : Hash8 :=
    ⟨hs.getD 0 0, hs.getD 1 0, hs.getD 2 0, hs.getD 3 0,
     hs.getD 4 0, hs.getD 5 0, hs.getD 6 0, hs.getD 7 0⟩
  let st := (k256.zip w).foldl step256 st0
  [(hs.getD 0 0 + st.a) &&& mask32, (hs.getD 1 0 + st.b) &&& mask32,
   (hs.getD 2 0 + st.c) &&& mask32, (hs.getD 3 0 + st.d) &&& mask32,
   (hs.getD 4 0 + st.e) &&& mask32, (hs.getD 5 0 + st.f) &&& mask32,
   (hs.getD 6 0 + st.g) &&& mask32, (hs.getD 7 0 + st.h) &&& mask32]

/-- SHA-256 padding: `0x80`, zeros to 56 mod 64, then the 64-bit bit length. -/
def pad256 (msg : List Nat) : List Nat :=
  let L := msg.length
  msg ++ [128] ++ List.replicate ((119 - L % 64) % 64) 0 ++ beBytes 8 (8 * L)

/-- SHA-256 digest (32 bytes) of a byte sequence. -/
def sha256 (msg : List Nat) : List Nat :=
  let padded := pad256 msg
  let blocks := chunksF 64 (padded.length + 1) padded
  (blocks.foldl block256 h256init).flatMap (beBytes 4)

/-! ## SHA-512 -/

def mask64 : Nat := 18446744073709551615

def rotr64 (x n : Nat) : Nat :=
  ((x >>> n) ||| (x <<< (64 - n))) &&& mask64

def k512 : List Nat := [
  4794697086780616226, 8158064640168781261, 13096744586834688815, 16840607885511220156,
  4131703408338449720, 6480981068601479193, 10538285296894168987, 12329834152419229976,
  15566598209576043074, 1334009975649890238, 2608012711638119052, 6128411473006802146,
  8268148722764581231, 9286055187155687089, 11230858885718282805, 13951009754708518548,
  16472876342353939154, 17275323862435702243, 1135362057144423861, 2597628984639134821,
  3308224258029322869, 5365058923640841347, 6679025012923562964, 8573033837759648693,
  10970295158949994411, 12119686244451234320, 12683024718118986047, 13788192230050041572,
  14330467153632333762, 15395433587784984357, 489312712824947311, 1452737877330783856,
  2861767655752347644, 3322285676063803686, 5560940570517711597, 5996557281743188959,
  7280758554555802590, 8532644243296465576, 9350256976987008742, 10552545826968843579,
  11727347734174303076, 12113106623233404929, 14000437183269869457, 14369950271660146224,
  15101387698204529176, 15463397548674623760, 17586052441742319658, 1182934255886127544,
  1847814050463011016, 2177327727835720531, 2830643537854262169, 3796741975233480872,
  4115178125766777443, 5681478168544905931, 6601373596472566643, 7507060721942968483,
  8399075790359081724, 8693463985226723168, 9568029438360202098, 10144078919501101548,
  10430055236837252648, 11840083180663258601, 13761210420658862357, 14299343276471374635,
  14566680578165727644, 15097957966210449927, 16922976911328602910, 17689382322260857208,
  500013540394364858, 748580250866718886, 1242879168328830382, 1977374033974150939,
  2944078676154940804, 3659926193048069267, 4368137639120453308, 4836135668995329356,
  5532061633213252278, 6448918945643986474, 6902733635092675308, 7801388544844847127
]

def h512init : List Nat := [
  7640891576956012808, 13503953896175478587, 4354685564936845355, 11912009170470909681,
  5840696475078001361, 11170449401992604703, 2270897969802886507, 6620516959819538809
]

/-- Big-endian 64-bit words of a byte block. -/
def wordsBE64 : List Nat → List Nat
  | b0 :: b1 :: b2 :: b3 :: b4 :: b5 :: b6 :: b7 :: rest =>
      ((b0 <<< 56) ||| (b1 <<< 48) ||| (b2 <<< 40) ||| (b3 <<< 32) |||
       (b4 <<< 24) ||| (b5 <<< 16) ||| (b6 <<< 8) ||| b7) :: wordsBE64 rest
  | _ => []

def extend512 (ws : List Nat) : Nat → List Nat
  | 0 => ws
  | Nat.succ k =>
      let i := ws.length
      let w15 := ws.getD (i - 15) 0
      let w2 := ws.getD (i - 2) 0
      let s0 := (rotr64 w15 1) ^^^ (rotr64 w15 8) ^^^ (w15 >>> 7)
      let s1 := (rotr64 w2 19) ^^^ (rotr64 w2 61) ^^^ (w2 >>> 6)
      extend512 (ws ++ [(ws.getD (i - 16) 0 + s0 + ws.getD (i - 7) 0 + s1) &&& mask64]) k

def step512 (st : Hash8) (kw : Nat × Nat) : Hash8 :=
  let S1 := (rotr64 st.e 14) ^^^ (rotr64 st.e 18) ^^^ (rotr64 st.e 41)
  let ch := (st.e &&& st.f) ^^^ ((mask64 ^^^ st.e) &&& st.g)
  let t1 := (st.h + S1 + ch + kw.1 + kw.2) &&& mask64
  let S0 := (rotr64 st.a 28) ^^^ (rotr64 st.a 34) ^^^ (rotr64 st.a 39)
  let maj := (st.a &&& st.b) ^^^ (st.a &&& st.c) ^^^ (st.b &&& st.c)
  let t2 := (S0 + maj) &&& mask64
  ⟨(t1 + t2) &&& mask64, st.a, st.b, st.c, (st.d + t1) &&& mask64, st.e, st.f, st.g⟩

def block512 (hs : List Nat) (block : List Nat) : List Nat :=
  let w := extend512 (wordsBE64 block) 64
  let st0 : Hash8 :=
    ⟨hs.getD 0 0, hs.getD 1 0, hs.getD 2 0, hs.getD 3 0,
     hs.getD 4 0, hs.getD 5 0, hs.getD 6 0, hs.getD 7 0⟩
  let st := (k512.zip w).foldl step512 st0
  [(hs.getD 0 0 + st.a) &&& mask64, (hs.getD 1 0 + st.b) &&& mask64,
   (hs.getD 2 0 + st.c) &&& mask64, (hs.getD 3 0 + st.d) &&& mask64,
   (hs.getD 4 0 + st.e) &&& mask64, (hs.getD 5 0 + st.f) &&& mask64,
   (hs.getD 6 0 + st.g) &&& mask64, (hs.getD 7 0 + st.h) &&& mask64]

/-- SHA-512 padding: `0x80`, zeros to 112 mod 128, then the 128-bit bit length. -/
def pad512 (msg : List Nat) : List Nat :=
  let L := msg.length
  msg ++ [128] ++ List.replicate ((239 - L % 128) % 128) 0 ++ beBytes 16 (8 * L)

/-- SHA-512 digest (64 bytes) of a byte sequence. -/
def sha512 (msg : List Nat) : List Nat :=
  let padded := pad512 msg
  let blocks := chunksF 128 (padded.length + 1) padded
  (blocks.foldl block512 h512init).flatMap (beBytes 8)

/-! ## HMAC (RFC 2104, as exposed by Python `hmac.new`) -/

/-- HMAC over an arbitrary hash with the given block size. -/
def hmacBytes (hash : List Nat → List Nat) (blockSize : Nat)
    (key msg : List Nat) : List Nat :=
  let k0 := if key.length > blockSize then hash key else key
  let kp := k0 ++ List.replicate (blockSize - k0.length) 0
  let ipad := kp.map (fun b => b ^^^ 54)
  let opad := kp.map (fun b => b ^^^ 92)
  hash (opad ++ hash (ipad ++ msg))

/-- `hmac.new(key, msg, hashlib.sha256).hexdigest()`. -/
def hmacSha256Hex (key msg : String) : String :=
  bytesToHex (hmacBytes sha256 64 (strBytes key) (strBytes msg))

/-- `hmac.new(key, msg, hashlib.sha512).hexdigest()`. -/
def hmacSha512Hex (key msg : String) : String :=
  bytesToHex (hmacBytes sha512 128 (strBytes key) (strBytes msg))

/-- `hashlib.sha512(payload).hexdigest()`. -/
def sha512Hex (msg : String) : String :=
  bytesToHex (sha512 (strBytes msg))

/-! ## Python runtime fragments shared by the adapters -/

/-- The Python exceptions the adapter layer raises or catches. -/
inductive PyErr where
  | typeError
  | keyError
  | attributeError
  | jsonDecodeError
deriving DecidableEq, Repr

/-- A decoded JSON document (the result of `response.json()`). -/
inductive Json where
  | null
  | bool (b : Bool)
  | num (n : Int)
  | str (s : String)
  | arr (elems : List Json)
  | obj (fields : List (String × Json))
deriving Repr

/-- Python subscription `data[field]` with a string key: a `dict` yields the
value or raises `KeyError`; every other JSON value raises `TypeError`
(string/list indices must be integers, other values are not subscriptable). -/
def pySubscript (j : Json) (field : String) : Except PyErr Json :=
  match j with
  | .obj fields =>
      match fields.find? (fun p => p.1 == field) with
      | some p => .ok p.2
      | none => .error .keyError
  | _ => .error .typeError

/-- The loop of `CryptoExchange._get_error_message`: successive subscription
by each field of the dotted path. -/
def walkPath (j : Json) : List String → Except PyErr Json
  | [] => .ok j
  | f :: rest =>
      match pySubscript j f with
      | .ok v => walkPath v rest
      | .error e => .error e

/-- The whitespace characters Python `str.strip()` removes. -/
def pyIsSpace (c : Char) : Bool :=
  c = ' ' || c = '\t' || c = '\n' || c = '\r' || c = '\x0b' || c = '\x0c'

/-- Python `str.strip()`: drop leading and trailing whitespace. -/
def pyStrip (cs : List Char) : List Char :=
  ((cs.dropWhile pyIsSpace).reverse.dropWhile pyIsSpace).reverse

/-- Python `str.split(".")`: split at every dot, keeping empty pieces. -/
def splitOnDot : List Char → List (List Char)
  | [] => [[]]
  | c :: rest =>
      match splitOnDot rest with
      | [] => if c = '.' then [[], [c]] else [[c]]
      | piece :: pieces =>
          if c = '.' then [] :: piece :: pieces else (c :: piece) :: pieces

/-- `message_fields.strip().split(".")` from `_get_error_message`. -/
def splitFields (message_fields : String) : List String :=
  (splitOnDot (pyStrip message_fields.toList)).map String.mk

/-- Python `message or default` for an optional string: `None` and `""` are
falsy, so both select the default. -/
def pyOrDefault (message : Option String) (default : String) : String :=
  match message with
  | none => default
  | some s => if s = "" then default else s

/-! ## `crypto_mcp/exceptions.py` -/

/-- The `CryptoAPIException` dataclass: `code`, `message`,
`timestamp` (epoch ms, `default_factory` = now), `success = False`.
`message` is `Option` because the unmapped branch of the error mapper can
pass `None` through. -/
structure CryptoAPIException where
  code : String
  message : Option String
  timestamp : Nat
  success : Bool
deriving DecidableEq, Repr

/-- Which exception subclass `_raise_for_failed_response` raises. -/
inductive FaultKind where
  | authentication
  | badRequest
  | notFound
  | rateLimit
  | internalServerError
  | unmapped
deriving DecidableEq, Repr

/-! ## `exchanges/base.py` (`CryptoExchange`) -/

namespace CryptoExchange

/-- `CryptoExchange._get_error_message`: parse the error body, then follow the
dotted field path. `body = none` stands for an absent or unparseable body,
whose `response.json()` raises `json.JSONDecodeError`. The `except` clause of
the source catches `AttributeError`, `KeyError` and `JSONDecodeError` and
returns `""`; any other exception of the traversal propagates. -/
def _get_error_message (body : Option Json) (message_fields : String) :
    Except PyErr Json :=
  let attempt : Except PyErr Json :=
    match body with
    | none => .error .jsonDecodeError
    | some data => walkPath data (splitFields message_fields)
  match attempt with
  | .ok v => .ok v
  | .error .attributeError => .ok (.str "")
  | .error .keyError => .ok (.str "")
  | .error .jsonDecodeError => .ok (.str "")
  | .error .typeError => .error .typeError

/-- `CryptoExchange._raise_for_failed_response`: the `if/elif` chain mapping an
HTTP status code and optional extracted message to the raised exception.
`now` is the epoch-millisecond clock value the dataclass default factory
reads at raise time. -/
def _raise_for_failed_response (now : Nat) (status_code : Nat)
    (message : Option String) : FaultKind × CryptoAPIException :=
  if status_code = 401 then
    (.authentication, ⟨"401", some (pyOrDefault message "Authentication failed"), now, false⟩)
  else if status_code = 400 then
    (.badRequest, ⟨"400", some (pyOrDefault message "Bad Request"), now, false⟩)
  else if status_code = 404 then
    (.notFound, ⟨"404", some (pyOrDefault message "Not Found"), now, false⟩)
  else if status_code = 429 then
    (.rateLimit, ⟨"429", some (pyOrDefault message "Rate Limit Exceeded"), now, false⟩)
  else if status_code = 500 then
    (.internalServerError, ⟨"500", some (pyOrDefault message "Internal Server Error"), now, false⟩)
  else
    (.unmapped, ⟨toString status_code, message, now, false⟩)

end CryptoExchange

/-! ## `crypto_mcp/http_handler.py` (`HTTPRequester.send`) -/

/-- The slice of an `httpx.Response` the handler reads or builds. -/
structure Response where
  status_code : Nat
  content : String
deriving DecidableEq, Repr

/-- An `httpx.RequestError` (connection-level transport failure). Per the
httpx API it carries only the `request`; only the unrelated subclass
`HTTPStatusError` has a `response` attribute. -/
structure RequestError where
  request : String
deriving DecidableEq, Repr

/-- Reading `e.response` on an `httpx.RequestError`: the attribute does not
exist, so the access raises `AttributeError`. -/
def RequestError.response (_ : RequestError) : Except PyErr Response :=
  .error .attributeError

/-- Outcome of `client.request(...)` inside `HTTPRequester.send`: either a
response or a raised `httpx.RequestError`. -/
inductive TransportOutcome where
  | success (r : Response)
  | requestError (e : RequestError)

namespace HTTPRequester

/-- `HTTPRequester.send`: return the response, and on `httpx.RequestError`
build a synthetic 500 response from `e.response.content` — an attribute
access that itself raises. -/
def send (outcome : TransportOutcome) : Except PyErr Response :=
  match outcome with
  | .success r => .ok r
  | .requestError e =>
      match e.response with
      | .ok resp => .ok { status_code := 500, content := resp.content }
      | .error err => .error err

end HTTPRequester

/-! ## Canonical entities used by the normalizers

Python floats are embedded opaquely: every normalizer is parameterized by a
float universe `F` together with the primitive float operations it applies
(`float(x)`, `*`, `x * 100`, and the `round(x, 2)` of `Ticker.__post_init__`).
No claim inspects a float value, so every theorem quantifies over them. -/

/-- A Python value stored in a canonical entity: either a raw decoded JSON
value passed through, or a computed float. -/
inductive PyVal (F : Type) where
  | json (j : Json)
  | flt (x : F)
deriving Repr

/-- The float primitives a normalizer applies. `ofJson` is the builtin
`float(x)` (which raises on non-numeric input), `times100` is `x * 100` on a
decoded JSON value, `round2` is `round(x, 2)`. -/
structure FloatOps (F : Type) where
  ofJson : Json → Except PyErr F
  mul : F → F → F
  times100 : Json → Except PyErr F
  round2 : F → F

/-- The canonical `Ticker` dataclass of `exchanges/base.py`; its
`__post_init__` rounds `change_percentage` to 2 decimals (applied by each
constructor below through `FloatOps.round2`). -/
structure Ticker (V : Type) where
  symbol : V
  trade_timestamp : V
  trade_price : V
  trade_volume : V
  opening_price : V
  high_price : V
  low_price : V
  change_percentage : V
  change_price : V
  acc_trade_volume : V
  acc_trade_price : V
  timestamp : V
deriving Repr

/-- The canonical `OrderBookItem` dataclass (one combined ask/bid depth
level). -/
structure OrderBookItem (V : Type) where
  ask_price : V
  ask_quantity : V
  bid_price : V
  bid_quantity : V
deriving DecidableEq, Repr

/-- A Python list comprehension over elements whose conversion can raise:
elements are converted left to right and the first exception propagates. -/
def mapExcept (f : α → Except ε β) : List α → Except ε (List β)
  | [] => .ok []
  | x :: xs => do
      let y ← f x
      let ys ← mapExcept f xs
      .ok (y :: ys)

/-- The `items=[OrderBookItem(...) for ask, bid in zip(asks, bids)]`
comprehension shared by `Binance.get_order_book` and `GateIO.get_order_book`:
positional pairing of the two ladders, each row a `[price, quantity]` pair of
wire strings converted by `float()` (`pf`). -/
def order_book_items (pf : String → α) (asks bids : List (String × String)) :
    List (OrderBookItem α) :=
  List.zipWith
    (fun ask bid => ⟨pf ask.1, pf ask.2, pf bid.1, pf bid.2⟩) asks bids

/-! ## `exchanges/binance.py` -/

namespace BinanceAuth

/-- `BinanceAuth.generate_signature`: concatenate the (URL-decoded) query
string and body payload — each appended only when non-empty, which Python
truthiness makes equivalent to plain concatenation — and HMAC-SHA256 the
result with the account secret. -/
def generate_signature (secret query_string payload_string : String) : String :=
  let message := ""
  let message := if query_string = "" then message else message ++ query_string
  let message := if payload_string = "" then message else message ++ payload_string
  hmacSha256Hex secret message

end BinanceAuth

namespace Binance

/-- The `status_map` literal of `Binance._convert_to_order`. -/
def status_map : List (String × String) :=
  [("NEW", "wait"), ("PENDING_NEW", "wait"), ("PARTIALLY_FILLED", "wait"),
   ("FILLED", "done")]

/-- The `status` field computed by `Binance._convert_to_order`:
`status_map.get(data["status"], "canceled")`. -/
def order_status (s : String) : String :=
  ((status_map.find? (fun p => p.1 == s)).map Prod.snd).getD "canceled"

/-- The query parameters of the request issued by `Binance.get_tickers`:
`params={"symbol": symbol}`, sent for every argument, the empty string
included (`none` would mean a request with no query parameters). -/
def get_tickers_params (symbol : String) : Option (List (String × String)) :=
  some [("symbol", symbol)]

/-- The normalizer of `Binance.get_tickers`: the response body is a single
JSON object and exactly one `Ticker` is built from it (`now` is the
`time.time() * 1000` clock read). -/
def get_tickers_ticker (ops : FloatOps F) (now : F) (data : Json) :
    Except PyErr (Ticker (PyVal F)) := do
  let sym ← pySubscript data "symbol"
  let last ← pySubscript data "lastPrice" >>= ops.ofJson
  let vol ← pySubscript data "volume" >>= ops.ofJson
  let opn ← pySubscript data "openPrice" >>= ops.ofJson
  let hi ← pySubscript data "highPrice" >>= ops.ofJson
  let lo ← pySubscript data "lowPrice" >>= ops.ofJson
  let chPct ← pySubscript data "priceChangePercent" >>= ops.ofJson
  let chPrc ← pySubscript data "priceChange" >>= ops.ofJson
  let qv ← pySubscript data "quoteVolume" >>= ops.ofJson
  .ok { symbol := .json sym, trade_price := .flt last, trade_volume := .flt vol,
        trade_timestamp := .flt now, opening_price := .flt opn,
        high_price := .flt hi, low_price := .flt lo,
        change_percentage := .flt (ops.round2 chPct), change_price := .flt chPrc,
        acc_trade_volume := .flt qv, acc_trade_price := .flt (ops.mul qv last),
        timestamp := .flt now }

end Binance

/-! ## `exchanges/gateio.py` -/

namespace GateIOAuth

/-- `GateIOAuth.generate_signature`: SHA-512 the body, build the canonical
five-line message, and HMAC-SHA512 it with the account secret. The timestamp
is interpolated into the message, so it is taken here as the string it
formats to. -/
def generate_signature (secret endpoint method timestamp query_string payload_string : String) :
    String :=
  let hashed_payload := sha512Hex payload_string
  let message :=
    method ++ "\n" ++ endpoint ++ "\n" ++ query_string ++ "\n" ++
      hashed_payload ++ "\n" ++ timestamp
  hmacSha512Hex secret message

end GateIOAuth

namespace Gateio

/-- The `status_map` literal of `GateIO._convert_to_order`; the source indexes
it with `status_map[data["status"]]`, so an unlisted wire status raises
`KeyError`. -/
def status_map : List (String × String) :=
  [("open", "wait"), ("closed", "done"), ("cancelled", "cancel")]

/-- The `status` field computed by `GateIO._convert_to_order`:
`status_map[data["status"]]`. -/
def order_status (s : String) : Except PyErr String :=
  match status_map.find? (fun p => p.1 == s) with
  | some p => .ok p.2
  | none => .error .keyError

/-- The query parameters of the request issued by `GateIO.get_tickers`:
`params={"currency_pair": symbol} if symbol else None`. -/
def get_tickers_params (symbol : String) : Option (List (String × String)) :=
  if symbol = "" then none else some [("currency_pair", symbol)]

/-- The element conversion of the `GateIO.get_tickers` list comprehension
(`now` is the `time.time() * 1000` clock read shared by all elements). -/
def ticker_of (ops : FloatOps F) (now : F) (item : Json) :
    Except PyErr (Ticker (PyVal F)) := do
  let cp ← pySubscript item "currency_pair"
  let last ← pySubscript item "last" >>= ops.ofJson
  let bv ← pySubscript item "base_volume" >>= ops.ofJson
  let hi ← pySubscript item "high_24h" >>= ops.ofJson
  let lo ← pySubscript item "low_24h" >>= ops.ofJson
  let chPct ← pySubscript item "change_percentage" >>= ops.ofJson
  let qv ← pySubscript item "quote_volume" >>= ops.ofJson
  .ok { symbol := .json cp, trade_timestamp := .flt now, trade_price := .flt last,
        trade_volume := .flt bv, opening_price := .json .null,
        high_price := .flt hi, low_price := .flt lo,
        change_percentage := .flt (ops.round2 chPct), change_price := .json .null,
        acc_trade_volume := .flt qv, acc_trade_price := .flt (ops.mul qv last),
        timestamp := .flt now }

/-- The normalizer of `GateIO.get_tickers`: one `Ticker` per element of the
response array. -/
def get_tickers_items (ops : FloatOps F) (now : F) (data : List Json) :
    Except PyErr (List (Ticker (PyVal F))) :=
  mapExcept (ticker_of ops now) data

end Gateio

/-! ## `exchanges/upbit.py` -/

namespace Upbit

/-- The query parameters of the request issued by `Upbit.get_tickers`:
`params = {"markets": symbol} if symbol else None`. -/
def get_tickers_params (symbol : String) : Option (List (String × String)) :=
  if symbol = "" then none else some [("markets", symbol)]

/-- The element conversion of the `Upbit.get_tickers` list comprehension:
wire values pass through raw, except `change_percentage`, which is
`ticker["signed_change_rate"] * 100` (then rounded by `__post_init__`). -/
def ticker_of (ops : FloatOps F) (item : Json) :
    Except PyErr (Ticker (PyVal F)) := do
  let mkt ← pySubscript item "market"
  let tts ← pySubscript item "trade_timestamp"
  let tp ← pySubscript item "trade_price"
  let tv ← pySubscript item "trade_volume"
  let op ← pySubscript item "opening_price"
  let hi ← pySubscript item "high_price"
  let lo ← pySubscript item "low_price"
  let scr ← pySubscript item "signed_change_rate" >>= ops.times100
  let chp ← pySubscript item "change_price"
  let atv ← pySubscript item "acc_trade_volume"
  let atp ← pySubscript item "acc_trade_price"
  let ts ← pySubscript item "timestamp"
  .ok { symbol := .json mkt, trade_timestamp := .json tts, trade_price := .json tp,
        trade_volume := .json tv, opening_price := .json op, high_price := .json hi,
        low_price := .json lo, change_percentage := .flt (ops.round2 scr),
        change_price := .json chp, acc_trade_volume := .json atv,
        acc_trade_price := .json atp, timestamp := .json ts }

/-- The normalizer of `Upbit.get_tickers`: one `Ticker` per element of the
response array. -/
def get_tickers_items (ops : FloatOps F) (data : List Json) :
    Except PyErr (List (Ticker (PyVal F))) :=
  mapExcept (ticker_of ops) data

/-- The JSON body sent by `Upbit.place_order`. -/
structure PlaceOrderBody (F : Type) where
  market : String
  side : String
  volume : Option F
  price : Option F
  ord_type : String
deriving Repr

/-- The request body construction of `Upbit.place_order`: the `order_type`
variable is first rewritten to `"price"` for a market buy, then `volume` and
`price` are nulled out according to the rewritten value. -/
def place_order_body (symbol side : String) (amount price : F)
    (order_type : String) : PlaceOrderBody F :=
  let order_type := if order_type == "market" && side == "bid" then "price" else order_type
  { market := symbol
    side := side
    volume := if order_type == "price" then none else some amount
    price := if order_type == "market" && side == "ask" then none else some price
    ord_type := order_type }

end Upbit

/-! ## `crypto_trading_mcp/utils.py`

`iso_to_timestamp` / `timestamp_to_iso` delegate to `datetime` and `pytz`;
their civil-calendar arithmetic is embedded below (proleptic Gregorian
calendar, epoch 1970-01-01). The input grammar is the one the repository
feeds them: `YYYY-MM-DDTHH:MM:SS` with a `±HH:MM` UTC offset. -/

/-- Decimal digit value of a character, if it is a digit. -/
def digitVal (c : Char) : Option Nat :=
  if 48 ≤ c.toNat ∧ c.toNat ≤ 57 then some (c.toNat - 48) else none

/-- A parsed ISO-8601 date-time with UTC offset. -/
structure CivilDateTime where
  year : Nat
  month : Nat
  day : Nat
  hour : Nat
  minute : Nat
  second : Nat
  offsetMinutes : Int
deriving DecidableEq, Repr

/-- The decimal number spelled by two digit characters at positions `i`,
`i + 1`. -/
def twoDigits (cs : List Char) (i : Nat) : Option Nat := do
  let a ← digitVal (cs.getD i ' ')
  let b ← digitVal (cs.getD (i + 1) ' ')
  some (a * 10 + b)

/-- The decimal number spelled by four digit characters starting at `i`. -/
def fourDigits (cs : List Char) (i : Nat) : Option Nat := do
  let a ← twoDigits cs i
  let b ← twoDigits cs (i + 2)
  some (a * 100 + b)

/-- `datetime.fromisoformat` on the `YYYY-MM-DDTHH:MM:SS±HH:MM` shape the
repository produces and consumes (`none` models the `ValueError` other
shapes would raise in this restricted grammar). -/
def fromisoformat (s : String) : Option CivilDateTime := do
  let cs := s.toList
  if cs.length ≠ 25 then none else
  if !(cs.getD 4 ' ' == '-' && cs.getD 7 ' ' == '-' && cs.getD 10 ' ' == 'T' &&
       cs.getD 13 ' ' == ':' && cs.getD 16 ' ' == ':' && cs.getD 22 ' ' == ':')
  then none else
  let y ← fourDigits cs 0
  let mo ← twoDigits cs 5
  let d ← twoDigits cs 8
  let h ← twoDigits cs 11
  let mi ← twoDigits cs 14
  let sec ← twoDigits cs 17
  let oh ← twoDigits cs 20
  let om ← twoDigits cs 23
  let off : Int ←
    if cs.getD 19 ' ' = '+' then some ((oh * 60 + om : Nat) : Int)
    else if cs.getD 19 ' ' = '-' then some (-((oh * 60 + om : Nat) : Int))
    else none
  some { year := y, month := mo, day := d, hour := h, minute := mi,
         second := sec, offsetMinutes := off }

/-- Days from 1970-01-01 to the given proleptic-Gregorian civil date
(Howard Hinnant's `days_from_civil`, specialized to years ≥ 1). -/
def daysFromCivil (y m d : Nat) : Int :=
  let y' := y - (if m ≤ 2 then 1 else 0)
  let era := y' / 400
  let yoe := y' % 400
  let doy := (153 * (if m > 2 then m - 3 else m + 9) + 2) / 5 + d - 1
  let doe := yoe * 365 + yoe / 4 - yoe / 100 + doy
  (era * 146097 + doe : Int) - 719468

/-- Civil date of the day `z` days after 1970-01-01 (Hinnant's
`civil_from_days`, specialized to nonnegative epoch days). -/
def civilFromDays (z : Nat) : Nat × Nat × Nat :=
  let z' := z + 719468
  let era := z' / 146097
  let doe := z' % 146097
  let yoe := ((doe - doe / 1460) + doe / 36524 - doe / 146096) / 365
  let doy := doe - (365 * yoe + yoe / 4 - yoe / 100)
  let mp := (5 * doy + 2) / 153
  let d := doy - (153 * mp + 2) / 5 + 1
  let m := if mp < 10 then mp + 3 else mp - 9
  (yoe + era * 400 + (if m ≤ 2 then 1 else 0), m, d)

/-- `iso_to_timestamp`: parse, then `dt.timestamp() * 1000` — the UTC epoch
milliseconds of the parsed instant. -/
def iso_to_timestamp (iso_date : String) : Option Int := do
  let dt ← fromisoformat iso_date
  let localSec : Int :=
    daysFromCivil dt.year dt.month dt.day * 86400 +
      (dt.hour * 3600 + dt.minute * 60 + dt.second : Nat)
  some ((localSec - dt.offsetMinutes * 60) * 1000)

/-- The UTC offset `pytz.timezone(tz)` attaches at the instants this layer
handles, from the tz database: Asia/Seoul is KST, UTC+09:00 (no DST in
2024). Only the zone the spec exercises is tabulated; `none` models
`pytz.UnknownTimeZoneError`. -/
def tzOffsetSeconds (tz : String) : Option Int :=
  if tz = "Asia/Seoul" then some 32400 else none

/-- A natural number printed in decimal, left-padded with zeros to width 2. -/
def pad2 (n : Nat) : String :=
  if n < 10 then "0" ++ toString n else toString n

/-- A year printed in decimal, left-padded with zeros to width 4. -/
def pad4 (n : Nat) : String :=
  if n < 10 then "000" ++ toString n
  else if n < 100 then "00" ++ toString n
  else if n < 1000 then "0" ++ toString n
  else toString n

/-- `timestamp_to_iso`: `datetime.fromtimestamp(timestamp / 1000, tz).isoformat()`
for nonnegative in-zone instants. The source divides by 1000 in float; the
instants this layer feeds are whole seconds, where the two agree. -/
def timestamp_to_iso (timestamp : Nat) (tz : String) : Option String := do
  let offSec ← tzOffsetSeconds tz
  let localSec := (timestamp / 1000 : Int) + offSec
  let localNat := localSec.toNat
  let days := localNat / 86400
  let sod := localNat % 86400
  let (y, m, d) := civilFromDays days
  let offMin := (if offSec < 0 then -offSec else offSec).toNat / 60
  let sign := if offSec < 0 then "-" else "+"
  some (pad4 y ++ "-" ++ pad2 m ++ "-" ++ pad2 d ++ "T" ++
        pad2 (sod / 3600) ++ ":" ++ pad2 (sod % 3600 / 60) ++ ":" ++
        pad2 (sod % 60) ++ sign ++ pad2 (offMin / 60) ++ ":" ++ pad2 (offMin % 60))

/-! ## Documented test vectors -/

/-- The Binance-documented signature payload (tests/test_binance.py and §8 of
the design spec). -/
def binance_doc_payload : String :=
  "symbol=LTCBTC&side=BUY&type=LIMIT&timeInForce=GTC&quantity=1&price=0.1&recvWindow=5000&timestamp=1499827319559"

/-- The Binance-documented test secret (tests/test_binance.py). -/
def binance_test_secret : String :=
  "NhqPtmdSJYdKjVHjA7PZj4Mge3R5YNiP1e3UZjInClVN65XAbvqqM6A7H5fATj0j"

/-- The GateIO-documented order body (tests/test_gateio.py and §8 of the
design spec). -/
def gateio_doc_payload : String :=
  "\x7b\"side\":\"buy\",\"amount\":\"0.001\",\"price\":\"65000\",\"type\":\"limit\",\"time_in_force\":\"gtc\"\x7d"

/-- The error body of the documented 400-response example
(§8 of the design spec). -/
def balances_error_body : Json :=
  .obj [("error", .obj [("message", .str "Get Balances Failed")])]

/-! ## Auxiliary lemmas -/

theorem string_empty_append (s : String) : "" ++ s = s := by
  cases s
  rfl

theorem string_append_empty (s : String) : s ++ "" = s := by
  cases s with
  | mk data => exact congrArg String.mk (List.append_nil data)

theorem mapExcept_length {f : α → Except ε β} :
    ∀ {l : List α} {res : List β}, mapExcept f l = .ok res → res.length = l.length := by
  intro l
  induction l with
  | nil => intro res h; cases h; rfl
  | cons x xs ih =>
      intro res h
      unfold mapExcept at h
      cases hx : f x with
      | error e => rw [hx] at h; exact absurd h (by simp [Bind.bind, Except.bind])
      | ok y =>
          rw [hx] at h
          cases hxs : mapExcept f xs with
          | error e =>
              rw [hxs] at h
              exact absurd h (by simp [Bind.bind, Except.bind])
          | ok ys =>
              rw [hxs] at h
              simp [Bind.bind, Except.bind] at h
              subst h
              simp [ih hxs]

end CryptoMcp

open CryptoMcp

/-! ## Claim C1 — order-status normalization -/

/-- C1: For every Binance wire status string, `Binance._convert_to_order`
assigns `wait` to NEW / PENDING_NEW / PARTIALLY_FILLED, `done` to FILLED and
`canceled` to everything else; GateIO maps its three documented statuses
`open` / `closed` / `cancelled` to exactly one value each — but `cancelled`
maps to `"cancel"`, which is NOT in the canonical set `{wait, done,
canceled}`, contradicting the GateIO half of the claim (and the
`Literal["wait", "done", "canceled"]` declaration of the shared `Order`
dataclass). -/
theorem c1_status_normalization :
    (∀ s : String,
      Binance.order_status s =
        if s = "NEW" ∨ s = "PENDING_NEW" ∨ s = "PARTIALLY_FILLED" then "wait"
        else if s = "FILLED" then "done" else "canceled") ∧
    Gateio.order_status "open" = .ok "wait" ∧
    Gateio.order_status "closed" = .ok "done" ∧
    Gateio.order_status "cancelled" = .ok "cancel" ∧
    List.elem "cancel" ["wait", "done", "canceled"] = false := by
  refine ⟨?_, rfl, rfl, rfl, by decide⟩
  intro s
  by_cases h1 : s = "NEW"
  · subst h1; decide
  by_cases h2 : s = "PENDING_NEW"
  · subst h2; decide
  by_cases h3 : s = "PARTIALLY_FILLED"
  · subst h3; decide
  by_cases h4 : s = "FILLED"
  · subst h4; decide
  have e1 : (("NEW" : String) == s) = false :=
    beq_eq_false_iff_ne.mpr fun h => h1 h.symm
  have e2 : (("PENDING_NEW" : String) == s) = false :=
    beq_eq_false_iff_ne.mpr fun h => h2 h.symm
  have e3 : (("PARTIALLY_FILLED" : String) == s) = false :=
    beq_eq_false_iff_ne.mpr fun h => h3 h.symm
  have e4 : (("FILLED" : String) == s) = false :=
    beq_eq_false_iff_ne.mpr fun h => h4 h.symm
  simp [Binance.order_status, Binance.status_map, List.find?, e1, e2, e3, e4,
        h1, h2, h3, h4]

/-! ## Claim C2 — the error mapper -/

/-- C2: `_raise_for_failed_response` raises exactly one fault per status
code — Authentication for 401, BadRequest for 400, NotFound for 404,
RateLimit for 429, InternalServerError for 500, and the generic unmapped
fault otherwise; the fault's code is the decimal string of the status code,
its timestamp is the millisecond clock read, `success` is false, and an
empty or absent extracted message selects the variant's default message. -/
theorem c2_error_mapper (now n : Nat) (m : Option String) :
    (CryptoExchange._raise_for_failed_response now n m).2.success = false ∧
    (CryptoExchange._raise_for_failed_response now n m).2.timestamp = now ∧
    (CryptoExchange._raise_for_failed_response now n m).2.code = toString n ∧
    (CryptoExchange._raise_for_failed_response now n m).1 =
      (if n = 401 then .authentication else if n = 400 then .badRequest
       else if n = 404 then .notFound else if n = 429 then .rateLimit
       else if n = 500 then .internalServerError else .unmapped) ∧
    ((m = none ∨ m = some "") →
      (n = 401 → (CryptoExchange._raise_for_failed_response now n m).2.message =
        some "Authentication failed") ∧
      (n = 400 → (CryptoExchange._raise_for_failed_response now n m).2.message =
        some "Bad Request") ∧
      (n = 404 → (CryptoExchange._raise_for_failed_response now n m).2.message =
        some "Not Found") ∧
      (n = 429 → (CryptoExchange._raise_for_failed_response now n m).2.message =
        some "Rate Limit Exceeded") ∧
      (n = 500 → (CryptoExchange._raise_for_failed_response now n m).2.message =
        some "Internal Server Error")) ∧
    (¬(n = 401 ∨ n = 400 ∨ n = 404 ∨ n = 429 ∨ n = 500) →
      (CryptoExchange._raise_for_failed_response now n m).2.message = m) := by
  unfold CryptoExchange._raise_for_failed_response
  by_cases h1 : n = 401
  · subst h1
    refine ⟨rfl, rfl, rfl, rfl, fun hm => ?_, fun hn => absurd (Or.inl rfl) hn⟩
    refine ⟨fun _ => ?_, by simp, by simp, by simp, by simp⟩
    rcases hm with hm | hm <;> simp [hm, pyOrDefault]
  by_cases h2 : n = 400
  · subst h2
    refine ⟨rfl, rfl, rfl, rfl, fun hm => ?_,
      fun hn => absurd (Or.inr (Or.inl rfl)) hn⟩
    refine ⟨by simp, fun _ => ?_, by simp, by simp, by simp⟩
    rcases hm with hm | hm <;> simp [hm, pyOrDefault]
  by_cases h3 : n = 404
  · subst h3
    refine ⟨rfl, rfl, rfl, rfl, fun hm => ?_,
      fun hn => absurd (Or.inr (Or.inr (Or.inl rfl))) hn⟩
    refine ⟨by simp, by simp, fun _ => ?_, by simp, by simp⟩
    rcases hm with hm | hm <;> simp [hm, pyOrDefault]
  by_cases h4 : n = 429
  · subst h4
    refine ⟨rfl, rfl, rfl, rfl, fun hm => ?_,
      fun hn => absurd (Or.inr (Or.inr (Or.inr (Or.inl rfl)))) hn⟩
    refine ⟨by simp, by simp, by simp, fun _ => ?_, by simp⟩
    rcases hm with hm | hm <;> simp [hm, pyOrDefault]
  by_cases h5 : n = 500
  · subst h5
    refine ⟨rfl, rfl, rfl, rfl, fun hm => ?_,
      fun hn => absurd (Or.inr (Or.inr (Or.inr (Or.inr rfl)))) hn⟩
    refine ⟨by simp, by simp, by simp, by simp, fun _ => ?_⟩
    rcases hm with hm | hm <;> simp [hm, pyOrDefault]
  simp [h1, h2, h3, h4, h5]

/-- C2 witness: concrete evaluations through `c2_error_mapper` — a 400 with
no extracted message gets the default "Bad Request", and an unmapped 418
carries its literal status code. -/
theorem c2_error_mapper_witness :
    (CryptoExchange._raise_for_failed_response 7 400 none).2.message =
      some "Bad Request" ∧
    (CryptoExchange._raise_for_failed_response 7 418 (some "teapot")).2.code =
      toString 418 := by
  constructor
  · exact ((c2_error_mapper 7 400 none).2.2.2.2.1 (Or.inl rfl)).2.1 rfl
  · exact (c2_error_mapper 7 418 (some "teapot")).2.2.1

/-! ## Claim C6 — transport-error normalization -/

/-- C6: the claim says `HTTPRequester.send` converts a connection-level
`httpx.RequestError` into a synthetic status-500 response; the code instead
reads `e.response` — an attribute `httpx.RequestError` does not have — so the
handler raises `AttributeError` and no synthetic response is ever returned
(the success path returns the response unchanged). -/
theorem c6_transport_error_raises (e : RequestError) :
    HTTPRequester.send (.requestError e) = .error .attributeError ∧
    ∀ r, HTTPRequester.send (.success r) = .ok r :=
  ⟨rfl, fun _ => rfl⟩

/-! ## Claim C10 — Upbit place_order body -/

/-- C10: `Upbit.place_order` sends a market buy as `ord_type="price"` with
`volume=null` and the price retained, a market sell as `ord_type="market"`
with `price=null` and the amount retained as volume, and a limit order with
both amount and price unchanged. -/
theorem c10_upbit_place_order_body (F : Type) (amount price : F) (symbol : String) :
    Upbit.place_order_body symbol "bid" amount price "market" =
      ⟨symbol, "bid", none, some price, "price"⟩ ∧
    Upbit.place_order_body symbol "ask" amount price "market" =
      ⟨symbol, "ask", some amount, none, "market"⟩ ∧
    ∀ side, Upbit.place_order_body symbol side amount price "limit" =
      ⟨symbol, side, some amount, some price, "limit"⟩ :=
  ⟨rfl, rfl, fun _ => rfl⟩

/-! ## Claim C3 — error-message extraction -/

/-- C3 counterexample: in the body `error: "oops"` the dotted path
`error.message` does not resolve (the traversal reaches the non-dict value
`"oops"`), yet `_get_error_message` does not return the empty string — the
subscription raises `TypeError`, which the `except` clause does not catch. -/
theorem c3_counterexample :
    walkPath (.obj [("error", .str "oops")]) (splitFields "error.message") =
      .error .typeError ∧
    CryptoExchange._get_error_message (some (.obj [("error", .str "oops")]))
      "error.message" = .error .typeError ∧
    (CryptoExchange._get_error_message (some (.obj [("error", .str "oops")]))
      "error.message").isOk = false :=
  ⟨rfl, rfl, rfl⟩

/-- C3 (amended): `_get_error_message` returns the value reached by the
dotted path when it resolves, and returns the empty string when the body is
absent/unparseable or a traversal step fails with `KeyError`; but when a
traversal step subscripts a non-dict value the uncaught `TypeError`
propagates instead of producing the empty string. The documented 400 example
resolves and produces a BadRequest fault with code "400" and message
"Get Balances Failed". -/
theorem c3_error_message_extraction :
    (∀ p, CryptoExchange._get_error_message none p = .ok (.str "")) ∧
    (∀ d p v, walkPath d (splitFields p) = .ok v →
      CryptoExchange._get_error_message (some d) p = .ok v) ∧
    (∀ d p, walkPath d (splitFields p) = .error .keyError →
      CryptoExchange._get_error_message (some d) p = .ok (.str "")) ∧
    (∀ d p, walkPath d (splitFields p) = .error .typeError →
      CryptoExchange._get_error_message (some d) p = .error .typeError) ∧
    (∀ now,
      CryptoExchange._get_error_message (some balances_error_body) "error.message" =
        .ok (.str "Get Balances Failed") ∧
      CryptoExchange._raise_for_failed_response now 400 (some "Get Balances Failed") =
        (.badRequest, ⟨"400", some "Get Balances Failed", now, false⟩)) := by
  refine ⟨fun p => rfl, ?_, ?_, ?_, fun now => ⟨rfl, rfl⟩⟩
  · intro d p v h
    simp [CryptoExchange._get_error_message, h]
  · intro d p h
    simp [CryptoExchange._get_error_message, h]
  · intro d p h
    simp [CryptoExchange._get_error_message, h]

/-- C3 witness: the amended theorem applied to the documented 400 body and to
a body whose path stops at a missing key. -/
theorem c3_error_message_extraction_witness :
    CryptoExchange._get_error_message (some balances_error_body) "error.message" =
      .ok (.str "Get Balances Failed") ∧
    CryptoExchange._get_error_message (some (.obj [("code", .num 1)]))
      "error.message" = .ok (.str "") :=
  ⟨c3_error_message_extraction.2.1 balances_error_body "error.message"
      (.str "Get Balances Failed") rfl,
   c3_error_message_extraction.2.2.1 (.obj [("code", .num 1)]) "error.message" rfl⟩

/-! ## Claim C5 — order-book truncation -/

/-- C5: the order-book normalizers of Binance and GateIO zip the ask and bid
ladders, so the item list has length `min (len asks) (len bids)`, pairs
`ask[i]` with `bid[i]` positionally, and drops the excess entries of the
longer side; with 2 asks and 1 bid exactly 1 item results. -/
theorem c5_order_book_truncation (α : Type) :
    (∀ (pf : String → α) (asks bids : List (String × String)),
      (order_book_items pf asks bids).length = min asks.length bids.length) ∧
    (∀ (pf : String → α) (asks bids : List (String × String)) (i : Nat) a b,
      asks.get? i = some a → bids.get? i = some b →
      (order_book_items pf asks bids).get? i =
        some ⟨pf a.1, pf a.2, pf b.1, pf b.2⟩) ∧
    (∀ (pf : String → α) a₁ a₂ b₁,
      order_book_items pf [a₁, a₂] [b₁] =
        [⟨pf a₁.1, pf a₁.2, pf b₁.1, pf b₁.2⟩]) := by
  refine ⟨?_, ?_, fun pf a₁ a₂ b₁ => rfl⟩
  · intro pf asks bids
    simp [order_book_items]
  · intro pf asks bids i a b ha hb
    exact (List.get?_zipWith_eq_some _ _ _ _ _).mpr ⟨a, b, ha, hb, rfl⟩

/-- C5 witness: the Binance depth fixture (2 asks, 1 bid) truncates to one
positionally-paired item. -/
theorem c5_order_book_truncation_witness :
    (order_book_items (fun s => s) [("4.00000200", "12.0"), ("4.1", "3.0")]
        [("4.00000000", "431.0")]).length =
      min ([("4.00000200", "12.0"), ("4.1", "3.0")] :
        List (String × String)).length [("4.00000000", "431.0")].length ∧
    (order_book_items (fun s => s) [("4.00000200", "12.0"), ("4.1", "3.0")]
        [("4.00000000", "431.0")]).get? 0 =
      some ⟨"4.00000200", "12.0", "4.00000000", "431.0"⟩ :=
  ⟨(c5_order_book_truncation String).1 (fun s => s) _ _,
   (c5_order_book_truncation String).2.1 (fun s => s) _ _ 0
     ("4.00000200", "12.0") ("4.00000000", "431.0") rfl rfl⟩

/-! ## Claim C8 — ISO round trip -/

/-- C8: `iso_to_timestamp` maps `2024-06-13T10:26:21+09:00` to epoch
milliseconds `1718241981000`, and `timestamp_to_iso` back through the
`Asia/Seoul` zone reproduces the identical literal string. -/
theorem c8_iso_round_trip :
    iso_to_timestamp "2024-06-13T10:26:21+09:00" = some 1718241981000 ∧
    timestamp_to_iso 1718241981000 "Asia/Seoul" =
      some "2024-06-13T10:26:21+09:00" := by
  constructor
  · decide
  · decide

/-! ## Claim C7 — ticker scoping -/

/-- C7 counterexample: `Binance.get_tickers("")` still sends the
market-scoping query parameter — the request carries `symbol=""` instead of
no parameter — so the Binance adapter does not implement the
empty-symbol-returns-all-markets contract. -/
theorem c7_counterexample :
    Binance.get_tickers_params "" = some [("symbol", "")] ∧
    (Binance.get_tickers_params "").isSome = true :=
  ⟨rfl, rfl⟩

/-- C7 (amended): GateIO and Upbit omit the market parameter for the empty
symbol (returning one ticker per market of the response array) and scope the
request to the one market for a non-empty symbol; Binance instead always
sends `symbol=<argument>` — the empty string included — and normalizes the
response as a single ticker object, so only GateIO and Upbit satisfy the
all-markets contract. -/
theorem c7_ticker_scoping :
    Gateio.get_tickers_params "" = none ∧
    Upbit.get_tickers_params "" = none ∧
    (∀ s, s ≠ "" → Gateio.get_tickers_params s = some [("currency_pair", s)]) ∧
    (∀ s, s ≠ "" → Upbit.get_tickers_params s = some [("markets", s)]) ∧
    (∀ (F : Type) (ops : FloatOps F) (now : F) (data : List Json) res,
      Gateio.get_tickers_items ops now data = .ok res → res.length = data.length) ∧
    (∀ (F : Type) (ops : FloatOps F) (data : List Json) res,
      Upbit.get_tickers_items ops data = .ok res → res.length = data.length) ∧
    (∀ s, Binance.get_tickers_params s = some [("symbol", s)]) := by
  refine ⟨rfl, rfl, ?_, ?_, ?_, ?_, fun s => rfl⟩
  · intro s hs
    simp [Gateio.get_tickers_params, hs]
  · intro s hs
    simp [Upbit.get_tickers_params, hs]
  · intro F ops now data res h
    exact mapExcept_length h
  · intro F ops data res h
    exact mapExcept_length h

/-- A concrete float universe for evaluating the normalizers: every float
operation returns the marker string `"f"`. -/
def constFloatOps : FloatOps String where
  ofJson := fun _ => .ok "f"
  mul := fun _ _ => "f"
  times100 := fun _ => .ok "f"
  round2 := fun x => x

/-- A one-element GateIO `spot/tickers` fixture (tests/test_gateio.py). -/
def gateio_ticker_item : Json :=
  .obj [("currency_pair", .str "BTC3L_USDT"), ("last", .str "2.46140352"),
        ("base_volume", .str "656614.08"), ("high_24h", .str "2.7431"),
        ("low_24h", .str "1.9863"), ("change_percentage", .str "-8.91"),
        ("quote_volume", .str "1602221.66")]

/-- The canonical ticker `gateio_ticker_item` normalizes to under
`constFloatOps`. -/
def gateio_ticker_expected : Ticker (PyVal String) :=
  { symbol := .json (.str "BTC3L_USDT"), trade_timestamp := .flt "now",
    trade_price := .flt "f", trade_volume := .flt "f",
    opening_price := .json .null, high_price := .flt "f", low_price := .flt "f",
    change_percentage := .flt "f", change_price := .json .null,
    acc_trade_volume := .flt "f", acc_trade_price := .flt "f",
    timestamp := .flt "now" }

/-- A one-element Upbit `ticker` fixture. -/
def upbit_ticker_item : Json :=
  .obj [("market", .str "KRW-BTC"), ("trade_timestamp", .num 1718241981000),
        ("trade_price", .num 95000000), ("trade_volume", .str "0.1"),
        ("opening_price", .num 94000000), ("high_price", .num 96000000),
        ("low_price", .num 93000000), ("signed_change_rate", .str "0.01"),
        ("change_price", .num 1000000), ("acc_trade_volume", .str "100"),
        ("acc_trade_price", .str "5"), ("timestamp", .num 1718241981123)]

/-- The canonical ticker `upbit_ticker_item` normalizes to under
`constFloatOps`. -/
def upbit_ticker_expected : Ticker (PyVal String) :=
  { symbol := .json (.str "KRW-BTC"), trade_timestamp := .json (.num 1718241981000),
    trade_price := .json (.num 95000000), trade_volume := .json (.str "0.1"),
    opening_price := .json (.num 94000000), high_price := .json (.num 96000000),
    low_price := .json (.num 93000000), change_percentage := .flt "f",
    change_price := .json (.num 1000000), acc_trade_volume := .json (.str "100"),
    acc_trade_price := .json (.str "5"), timestamp := .json (.num 1718241981123) }

/-- C7 witness: concrete scoped parameters, and the one-element fixtures
normalized through the amended theorem — one canonical ticker per response
element. -/
theorem c7_ticker_scoping_witness :
    Gateio.get_tickers_params "BTC_USDT" = some [("currency_pair", "BTC_USDT")] ∧
    Upbit.get_tickers_params "KRW-BTC" = some [("markets", "KRW-BTC")] ∧
    Gateio.get_tickers_items constFloatOps "now" [gateio_ticker_item] =
      .ok [gateio_ticker_expected] ∧
    [gateio_ticker_expected].length = [gateio_ticker_item].length ∧
    Upbit.get_tickers_items constFloatOps [upbit_ticker_item] =
      .ok [upbit_ticker_expected] ∧
    [upbit_ticker_expected].length = [upbit_ticker_item].length :=
  ⟨c7_ticker_scoping.2.2.1 "BTC_USDT" (by decide),
   c7_ticker_scoping.2.2.2.1 "KRW-BTC" (by decide),
   rfl,
   c7_ticker_scoping.2.2.2.2.1 String constFloatOps "now" [gateio_ticker_item]
     [gateio_ticker_expected] rfl,
   rfl,
   c7_ticker_scoping.2.2.2.2.2.1 String constFloatOps [upbit_ticker_item]
     [upbit_ticker_expected] rfl⟩

/-! ## Claim C4 — Binance signature -/

/-- C4: `BinanceAuth.generate_signature` depends only on the concatenation of
the query string and body payload — every split of the same signing string
yields the same HMAC-SHA256 hex digest — and the documented payload signed
with the documented secret yields the documented digest. -/
theorem c4_binance_signature :
    (∀ secret s q p : String, q ++ p = s →
      BinanceAuth.generate_signature secret q p = hmacSha256Hex secret s) ∧
    BinanceAuth.generate_signature binance_test_secret "" binance_doc_payload =
      "c8db56825ae71d6d79447849e617115f4a920fa2acdcab2b053c4b2838bd6b71" := by
  constructor
  · intro secret s q p hqp
    subst hqp
    by_cases hq : q = "" <;> by_cases hp : p = "" <;>
      simp [BinanceAuth.generate_signature, hq, hp,
            string_empty_append, string_append_empty]
  · decide

/-- C4 witness: splitting the documented payload between a query part and a
body part produces the same documented digest as signing it whole. -/
theorem c4_binance_signature_witness :
    BinanceAuth.generate_signature binance_test_secret
      "symbol=LTCBTC&side=BUY&type=LIMIT&timeInForce=GTC&"
      "quantity=1&price=0.1&recvWindow=5000&timestamp=1499827319559" =
    "c8db56825ae71d6d79447849e617115f4a920fa2acdcab2b053c4b2838bd6b71" := by
  have hsplit := c4_binance_signature.1 binance_test_secret binance_doc_payload
    "symbol=LTCBTC&side=BUY&type=LIMIT&timeInForce=GTC&"
    "quantity=1&price=0.1&recvWindow=5000&timestamp=1499827319559" (by decide)
  have hwhole := c4_binance_signature.1 binance_test_secret binance_doc_payload
    "" binance_doc_payload (by decide)
  exact hsplit.trans (hwhole.symm.trans c4_binance_signature.2)

/-! ## Claim C9 — GateIO signature -/

/-- C9 counterexample: the literal digest of the claim is not determined by
the code — it also depends on the `GATEIO_SECRET_KEY` environment credential,
which is not in the repository. With the empty secret, the documented
arguments produce a different 128-hex-character digest. -/
theorem c9_counterexample :
    GateIOAuth.generate_signature "" "fake-endpoint" "POST" "1710488334"
      "currency_pair=BTC_USDT" gateio_doc_payload =
      "522809e807de864048e64ae9d994e1890d94bcb417ddeca415838f959e497713a860c26329ca37e3a205aee6beacae0cf73be549fee4740e52d45a6048e3f431" ∧
    (("522809e807de864048e64ae9d994e1890d94bcb417ddeca415838f959e497713a860c26329ca37e3a205aee6beacae0cf73be549fee4740e52d45a6048e3f431" : String) ==
      "ce0372c44f5fe877702fe7ae35c272157baaa58939449535ee45ae17a393820e27ca4e16aa190f23302592870aa10bff17e9d80bfe09c909aab323aed7f69419") = false := by
  constructor
  · decide
  · decide

/-- C9 (amended): `GateIOAuth.generate_signature` is HMAC-SHA512, keyed by
the account secret, over the canonical message
`method NL path NL decoded-query NL hex(sha512(body)) NL timestamp`; for the
documented arguments the body hashes to the fixed SHA-512 digest below, and
the claim's literal digest additionally depends on the (unrecorded)
`GATEIO_SECRET_KEY` credential rather than on the code alone. -/
theorem c9_gateio_signature :
    (∀ secret endpoint method timestamp query payload : String,
      GateIOAuth.generate_signature secret endpoint method timestamp query payload =
        hmacSha512Hex secret
          (method ++ "\n" ++ endpoint ++ "\n" ++ query ++ "\n" ++
            sha512Hex payload ++ "\n" ++ timestamp)) ∧
    sha512Hex gateio_doc_payload =
      "29d9ff8e1164d941a6159033d8b2b1d9b817a5cb950b7c96f711d6cb827d62b547e9d912fb6908bf5e681404fffc233d19104e337f1bc3b571ed91d4012591be" := by
  constructor
  · intro secret endpoint method timestamp query payload
    rfl
  · decide
